import Mathlib

/-!
Verification development for the animation core of the motion-repl repository
(single dense module src/src/lib/Motion.svelte plus small helpers under
src/src/lib/).  Times and values are modelled as rationals; JavaScript
behaviour (strict equality, truthiness, Math.round/floor, the remainder
operator, strict-mode property semantics and private-name member lookup) is
embedded explicitly where the source depends on it.
-/

namespace MotionRepl

/-- JavaScript runtime errors relevant to this development.  A property access
on a value that is not an object, a call of a non-function, and a strict-mode
assignment to a property of a primitive all raise TypeError. -/
inductive JsError
  | typeError
deriving Repr, DecidableEq

/-- Embedding of clamp (Motion.svelte lines 131-135):
if v is greater than max return max, if less than min return min, else v. -/
def clamp (lo hi v : ℚ) : ℚ :=
  if v > hi then hi else if v < lo then lo else v

/-- Embedding of velocityPerSecond (Motion.svelte lines 127-129).  The source
reads frameDuration ? velocity * (1000 / frameDuration) : 0, where a
JavaScript number is truthy exactly when it is nonzero. -/
def velocityPerSecond (velocity frameDuration : ℚ) : ℚ :=
  if frameDuration ≠ 0 then velocity * (1000 / frameDuration) else 0

/-- Embedding of Math.round for rationals.  JavaScript rounds half-up
(toward positive infinity), which is the floor of q + 1/2. -/
def jsRound (q : ℚ) : ℚ := ((⌊q + 1 / 2⌋ : ℤ) : ℚ)

/-- Embedding of the JavaScript remainder x % 1 for finite x: the result has
the sign of the dividend, so nonnegative x gives x minus its floor and
negative x gives x minus its ceiling. -/
def jsFract (q : ℚ) : ℚ :=
  if 0 ≤ q then q - ((⌊q⌋ : ℤ) : ℚ) else q - ((⌈q⌉ : ℤ) : ℚ)

/-! ## Frame batching scheduler: createRenderStep (Motion.svelte lines 156-252)

A render step owns two callback queues (thisFrame and nextFrame), a keep-alive
set, an isProcessing flag and a flushNextFrame flag.  Callbacks are opaque to
the step; we model them as naturals paired with an environment assigning each
callback the scheduler-visible actions it performs when run.  The FrameData
record passed to callbacks carries no information the claims depend on and is
not modelled. -/

/-- Scheduler-visible actions a callback may perform while it runs during a
pass: re-enter process on the same step, schedule a callback (with keepAlive
and immediate flags), or do nothing. -/
inductive StepAction
  | callProcess
  | schedule (cb : ℕ) (keepAlive immediate : Bool)
  | nop
deriving Repr, DecidableEq

/-- Environment mapping each callback id to the actions its body performs. -/
def StepEnv : Type := ℕ → List StepAction

/-- State of one render step (the closure created by createRenderStep):
the two queues, the keep-alive set, the processing flag, the flush-next flag,
and whether runNextFrame was requested by a keep-alive re-schedule. -/
structure StepState where
  thisFrame : List ℕ
  nextFrame : List ℕ
  keepAlive : List ℕ
  isProcessing : Bool
  flushNextFrame : Bool
  requestedNextFrame : Bool
deriving Repr, DecidableEq

/-- Fresh step state: both queues empty, no keep-alive entries, idle. -/
def emptyStep : StepState :=
  { thisFrame := [], nextFrame := [], keepAlive := [], isProcessing := false,
    flushNextFrame := false, requestedNextFrame := false }

/-- Embedding of step.schedule (Motion.svelte lines 196-205).  The callback is
added to the current queue if immediate is set and the step is mid-processing,
else to the next-frame queue; the target queue and the keep-alive set are
deduplicated (JavaScript Set semantics). -/
def stepSchedule (s : StepState) (cb : ℕ) (keepAlive immediate : Bool) : StepState :=
  let addToCurrentFrame := immediate && s.isProcessing
  let s1 := if keepAlive ∧ cb ∉ s.keepAlive then
      { s with keepAlive := s.keepAlive ++ [cb] } else s
  if addToCurrentFrame then
    (if cb ∈ s1.thisFrame then s1 else { s1 with thisFrame := s1.thisFrame ++ [cb] })
  else
    (if cb ∈ s1.nextFrame then s1 else { s1 with nextFrame := s1.nextFrame ++ [cb] })

/-- Embedding of step.cancel (Motion.svelte lines 210-213): removes the
callback from the next-frame queue and from the keep-alive set only. -/
def stepCancel (s : StepState) (cb : ℕ) : StepState :=
  { s with nextFrame := s.nextFrame.filter (fun x => x ≠ cb),
           keepAlive := s.keepAlive.filter (fun x => x ≠ cb) }

/-- Embedding of the isProcessing branch of step.process (Motion.svelte lines
226-229): a process call that arrives while the same step is mid-processing
only sets flushNextFrame and returns.  During a pass this is the only
reachable branch of a nested process call, so the action interpreter uses
this function for StepAction.callProcess. -/
def stepProcessReenter (s : StepState) : StepState :=
  if s.isProcessing then { s with flushNextFrame := true } else s

/-- Interpretation of one scheduler-visible action performed by a running
callback against the step state. -/
def stepRunAction (s : StepState) (a : StepAction) : StepState :=
  match a with
  | StepAction.callProcess => stepProcessReenter s
  | StepAction.schedule cb ka imm => stepSchedule s cb ka imm
  | StepAction.nop => s

/-- Events observable in a run of the step: the start of a pass and the
invocation of a callback. -/
inductive StepEv
  | passStart
  | ran (cb : ℕ)
deriving Repr, DecidableEq

/-- Embedding of the forEach(triggerCallback) loop of step.process (Motion.svelte
lines 183-190 and 240).  JavaScript Set.forEach visits entries in insertion
order including entries appended during iteration, so the queue is walked by
index; triggerCallback first re-schedules keep-alive callbacks (flagging
runNextFrame) and then invokes the callback.  Fuel bounds queue growth. -/
def stepRunQueue (env : StepEnv) (fuel : ℕ) (s : StepState) (i : ℕ)
    (log : List StepEv) : StepState × List StepEv :=
  match fuel with
  | 0 => (s, log)
  | f + 1 =>
    match s.thisFrame.get? i with
    | none => (s, log)
    | some cb =>
      let sk := if cb ∈ s.keepAlive then
          { (stepSchedule s cb false false) with requestedNextFrame := true } else s
      let s2 := (env cb).foldl stepRunAction sk
      stepRunQueue env f s2 (i + 1) (log ++ [StepEv.ran cb])

/-- Embedding of step.process (Motion.svelte lines 218-248).  If already
processing it sets flushNextFrame and returns; otherwise it swaps the queues,
clears the next-frame queue, executes the current queue, and when
flushNextFrame was set during the pass it clears the flag and immediately
re-processes once.  Fuel bounds the flush recursion. -/
def stepProcess (env : StepEnv) (fuel : ℕ) (s : StepState)
    (log : List StepEv) : StepState × List StepEv :=
  match fuel with
  | 0 => (s, log)
  | f + 1 =>
    if s.isProcessing then ({ s with flushNextFrame := true }, log)
    else
      let s1 : StepState :=
        { s with thisFrame := s.nextFrame, nextFrame := [], isProcessing := true }
      let r := stepRunQueue env f s1 0 (log ++ [StepEv.passStart])
      let s3 := { r.1 with isProcessing := false }
      if s3.flushNextFrame then
        stepProcess env f { s3 with flushNextFrame := false } r.2
      else (s3, r.2)

/-- Environment for the re-entrancy scenario: callback 0 calls process on its
own step top-level while it is running; every other callback does nothing. -/
def reenterEnv : StepEnv := fun cb => if cb = 0 then [StepAction.callProcess] else []

/-- Environment of pure callbacks that perform no scheduler-visible action. -/
def pureEnv : StepEnv := fun _ => []

/-- Step state with callback 0 scheduled for the next frame. -/
def reenterStart : StepState := stepSchedule emptyStep 0 false false

/-! ## Frame batching scheduler: createRenderBatcher (Motion.svelte lines 263-335) -/

/-- Embedding of maxElapsed (Motion.svelte line 263): the upper clamp on a
measured frame delta, in milliseconds. -/
def maxElapsed : ℚ := 40

/-- Batcher state relevant to frame-delta computation: the timestamp of the
previous processed batch, whether the next batch uses the fixed nominal delta,
the runNextFrame flag, and the isProcessing flag of the shared frame data. -/
structure BatcherState where
  timestamp : ℚ
  useDefaultElapsed : Bool
  runNextFrame : Bool
  isProcessing : Bool
deriving Repr, DecidableEq

/-- Embedding of the delta computation of processBatch (Motion.svelte line 288):
the first frame of a wake cycle uses 1000/60; later frames clamp the measured
elapsed time into the closed interval from 1 to maxElapsed. -/
def processBatchDelta (s : BatcherState) (now : ℚ) : ℚ :=
  if s.useDefaultElapsed then 1000 / 60
  else max (min (now - s.timestamp) maxElapsed) 1

/-- Embedding of processBatch (Motion.svelte lines 284-307) at the level of
the batcher flags.  Callbacks run with isProcessing true; whether some
callback flagged runNextFrame during the batch is passed in as a parameter.
Returns the post-batch state, the delta that was broadcast, and whether a
follow-up batch was scheduled (the keep-alive branch, which is also the only
place useDefaultElapsed is set to false). -/
def processBatch (s : BatcherState) (now : ℚ) (flaggedRunNextFrame allowKeepAlive : Bool) :
    BatcherState × ℚ × Bool :=
  let delta := processBatchDelta s now
  if flaggedRunNextFrame && allowKeepAlive then
    ({ timestamp := now, useDefaultElapsed := false,
       runNextFrame := flaggedRunNextFrame, isProcessing := false }, delta, true)
  else
    ({ timestamp := now, useDefaultElapsed := s.useDefaultElapsed,
       runNextFrame := flaggedRunNextFrame, isProcessing := false }, delta, false)

/-- Embedding of wake (Motion.svelte lines 309-316): sets runNextFrame and
useDefaultElapsed, and requests a batch unless one is mid-processing.  The
Bool records whether scheduleNextBatch was invoked. -/
def wake (s : BatcherState) : BatcherState × Bool :=
  ({ s with runNextFrame := true, useDefaultElapsed := true }, !s.isProcessing)

/-! ## Duration-based spring resolution: findSpring (Motion.svelte lines 350-441)

The claims about findSpring concern its input clamping, its warning behaviour
and the iteration structure of the Newton root-find; these parts are pure
rational arithmetic and are embedded exactly.  The transcendental envelope and
derivative closures are abstracted as function parameters of approximateRoot,
which is how approximateRoot itself treats them. -/

/-- Embedding of safeMin (Motion.svelte line 350). -/
def safeMin : ℚ := 1 / 1000

/-- Embedding of minDuration (line 351, seconds). -/
def minDuration : ℚ := 1 / 100

/-- Embedding of maxDuration (line 352, seconds). -/
def maxDuration : ℚ := 10

/-- Embedding of minDamping (line 353). -/
def minDamping : ℚ := 1 / 20

/-- Embedding of maxDamping (line 354). -/
def maxDamping : ℚ := 1

/-- Embedding of secondsToMilliseconds (Motion.svelte line 1893). -/
def secondsToMilliseconds (seconds : ℚ) : ℚ := seconds * 1000

/-- Embedding of millisecondsToSeconds (Motion.svelte line 1894). -/
def millisecondsToSeconds (milliseconds : ℚ) : ℚ := milliseconds / 1000

/-- Embedding of rootIterations (Motion.svelte line 430). -/
def rootIterations : ℕ := 12

/-- One Newton update x := x - envelope(x) / derivative(x), the loop body of
approximateRoot (Motion.svelte line 434). -/
def newtonStep (envelope derivative : ℚ → ℚ) (x : ℚ) : ℚ :=
  x - envelope x / derivative x

/-- The loop of approximateRoot, applying the Newton update the given number
of times. -/
def newtonLoop (envelope derivative : ℚ → ℚ) : ℕ → ℚ → ℚ
  | 0, r => r
  | n + 1, r => newtonLoop envelope derivative n (newtonStep envelope derivative r)

/-- Embedding of approximateRoot (Motion.svelte lines 431-437).  The source
loop is for (let i = 1; i < rootIterations; i++), whose body executes for
i = 1 through rootIterations - 1, that is rootIterations - 1 times. -/
def approximateRoot (envelope derivative : ℚ → ℚ) (initialGuess : ℚ) : ℚ :=
  newtonLoop envelope derivative (rootIterations - 1) initialGuess

/-- Modelled from the spec for refutation of claim C5: the same Newton update
applied as, in the words of the spec, "Newton's method, 12 fixed iterations". -/
def approximateRootTwelveIterations (envelope derivative : ℚ → ℚ) (initialGuess : ℚ) : ℚ :=
  newtonLoop envelope derivative 12 initialGuess

/-- Result of the input-normalisation prefix of findSpring: the clamped
damping ratio, the clamped duration in seconds, and whether the non-fatal
duration warning fired. -/
structure FindSpringFront where
  dampingRat : ℚ
  durationSec : ℚ
  warned : Bool
deriving Repr, DecidableEq

/-- Embedding of the prefix of findSpring (Motion.svelte lines 360-368):
warning(duration <= secondsToMilliseconds(maxDuration), ...) fires (a console
warning, never a throw) exactly when its check is false; dampingRatio
1 - bounce is clamped to the minDamping..maxDamping range and the duration,
converted to seconds, to the minDuration..maxDuration range. -/
def findSpringFront (duration bounce : ℚ) : FindSpringFront :=
  { dampingRat := clamp minDamping maxDamping (1 - bounce),
    durationSec := clamp minDuration maxDuration (millisecondsToSeconds duration),
    warned := if duration ≤ secondsToMilliseconds maxDuration then false else true }

/-! ## KeyframeResolver (Motion.svelte lines 961-1166) -/

/-- An entry of UnresolvedKeyframes: the source type is T | null, so an entry
is either the null placeholder or a value (numeric here, matching the claims). -/
inductive KfEntry
  | null
  | val (v : ℚ)
deriving Repr, DecidableEq

/-- Strict equality of an UnresolvedKeyframes entry with the JavaScript value
undefined (the check on Motion.svelte line 1129).  Entries have source type
T | null, and in JavaScript null === undefined is false, as is v === undefined
for any value v; so the comparison is false for every entry. -/
def kfStrictEqUndefined (_e : KfEntry) : Bool := false

/-- The in-place forward propagation for null entries at index at least 1
(Motion.svelte line 1137): each null entry is replaced by the already-resolved
entry immediately before it. -/
def propagateNulls : KfEntry → List KfEntry → List KfEntry
  | _, [] => []
  | prev, KfEntry.null :: rest => prev :: propagateNulls prev rest
  | _, e :: rest => e :: propagateNulls e rest

/-- Embedding of KeyframeResolver.readKeyframes (Motion.svelte lines
1102-1141) for numeric keyframes.
The parameter motionValue is none when the resolver has no value container,
and some c when it has one whose get() returns c (itself an Option, since the
current value may be undefined).  The parameter elementRead is none when
element or name is absent, and some r when element.readValue(name, final)
returns r, where r is none exactly when the read yields undefined or null
(the source treats the two alike on line 1124).
For a null first entry the source substitutes the defined current value, else
a defined non-null instance read; the subsequent fallback on line 1129 tests
unresolvedKeyframes[0] === undefined, which is false both for the null
placeholder and for any value, so it never rewrites the entry.  The
motionValue.set side effect of line 1134 does not affect the resolved list
and is not modelled. -/
def readKeyframes (kf : List KfEntry) (motionValue : Option (Option ℚ))
    (elementRead : Option (Option ℚ)) : List KfEntry :=
  match kf with
  | [] => []
  | first :: rest =>
    if first = KfEntry.null then
      let currentValue : Option ℚ := match motionValue with
        | none => none
        | some c => c
      let finalKeyframe : KfEntry := (first :: rest).getLast (List.cons_ne_nil first rest)
      let k0a : KfEntry := match currentValue with
        | some c => KfEntry.val c
        | none => match elementRead with
          | some (some r) => KfEntry.val r
          | _ => first
      let k0b : KfEntry := if kfStrictEqUndefined k0a then finalKeyframe else k0a
      k0b :: propagateNulls k0b rest
    else
      first :: propagateNulls first rest

/-- Lifecycle state of one KeyframeResolver: the isComplete and isScheduled
flags, membership in the module-level toResolve set, and the number of times
the completion callback onComplete has been invoked. -/
structure ResolverState where
  isComplete : Bool
  isScheduled : Bool
  inPendingSet : Bool
  completeCalls : ℕ
deriving Repr, DecidableEq

/-- Embedding of KeyframeResolver.complete (Motion.svelte lines 1148-1154):
it sets isComplete, invokes onComplete with the resolved keyframes and the
optional final keyframe, and removes the resolver from toResolve.  There is no
early return on isComplete, so every call invokes the callback. -/
def resolverComplete (s : ResolverState) : ResolverState :=
  { s with isComplete := true, completeCalls := s.completeCalls + 1, inPendingSet := false }

/-- Embedding of KeyframeResolver.cancel (Motion.svelte lines 1156-1161). -/
def resolverCancel (s : ResolverState) : ResolverState :=
  if s.isComplete then s
  else { s with isScheduled := false, inPendingSet := false }

/-- Embedding of KeyframeResolver.scheduleResolve (Motion.svelte lines
1086-1100) for the synchronous (isAsync false) path: sets isScheduled, reads
the keyframes and completes.  The keyframe data itself is tracked separately
by readKeyframes. -/
def resolverScheduleResolveSync (s : ResolverState) : ResolverState :=
  resolverComplete { s with isScheduled := true }

/-- Embedding of KeyframeResolver.resume (Motion.svelte lines 1163-1165):
re-schedules resolution unless the resolver has completed. -/
def resolverResume (s : ResolverState) : ResolverState :=
  if s.isComplete then s else resolverScheduleResolveSync s

/-- A freshly constructed resolver: not complete, not scheduled, not pending,
callback never invoked. -/
def freshResolver : ResolverState :=
  { isComplete := false, isScheduled := false, inPendingSet := false, completeCalls := 0 }

/-! ## SubscriptionManager (Motion.svelte lines 758-791) and
MotionValue.updateAndNotify (lines 2261-2313)

Handlers are opaque to the manager; we model them as naturals and record
which handlers a notify call invokes, in order. -/

/-- State of one SubscriptionManager.  The field models the JavaScript
private field named hash-subscriptions (written with a leading number sign in
the source, line 759), the only storage the class declares. -/
structure SubscriptionManager where
  privateSubscriptions : List ℕ
deriving Repr, DecidableEq

/-- Value of the plain property access this.subscriptions inside notify
(Motion.svelte line 773).  The class declares only the private-named field
(line 759); no plain subscriptions property exists on the instance or its
prototype, so in JavaScript this access evaluates to undefined. -/
def SubscriptionManager.subscriptionsPropertyLookup (_m : SubscriptionManager) :
    Option (List ℕ) := none

/-- Embedding of SubscriptionManager.notify (Motion.svelte lines 766-784).
With no subscriptions it returns early.  With exactly one it takes the
single-handler fast path this.subscriptions[0](a, b, c): the property lookup
yields undefined and indexing undefined throws TypeError.  With two or more
it loops over the private field, invoking each handler that exists.  On
success the returned list records the handlers invoked, in order. -/
def SubscriptionManager.notify (m : SubscriptionManager) : Except JsError (List ℕ) :=
  let numSubscriptions := m.privateSubscriptions.length
  if numSubscriptions = 0 then Except.ok []
  else if numSubscriptions = 1 then
    match m.subscriptionsPropertyLookup with
    | none => Except.error JsError.typeError
    | some subs => Except.ok (subs.take 1)
  else Except.ok m.privateSubscriptions

/-- State of a MotionValue as far as set and updateAndNotify observe it: the
current and previous values and the lazily allocated per-event
SubscriptionManagers for the change and renderRequest events (none when that
event has never been subscribed, matching this.events lacking the key). -/
structure MotionValueState where
  current : ℚ
  prev : ℚ
  changeEvent : Option SubscriptionManager
  renderRequestEvent : Option SubscriptionManager
deriving Repr, DecidableEq

/-- Embedding of MotionValue.updateAndNotify (Motion.svelte lines 2288-2313)
for a numeric value.  It stores the previous value, sets the current one,
notifies change subscribers when the new value differs from the previous,
then notifies renderRequest subscribers when render is set.  The timestamp
bookkeeping (setPrevFrameValue) does not affect values or notification and is
not modelled.  On success the result carries the new state, the change
handlers invoked and the renderRequest handlers invoked. -/
def updateAndNotify (mv : MotionValueState) (v : ℚ) (render : Bool) :
    Except JsError (MotionValueState × List ℕ × List ℕ) :=
  let prev := mv.current
  let mv1 : MotionValueState := { mv with prev := prev, current := v }
  let changeResult : Except JsError (List ℕ) :=
    if v ≠ prev then
      match mv.changeEvent with
      | some mgr => mgr.notify
      | none => Except.ok []
    else Except.ok []
  match changeResult with
  | Except.error e => Except.error e
  | Except.ok changed =>
    if render then
      match mv.renderRequestEvent with
      | some mgr =>
        match mgr.notify with
        | Except.error e => Except.error e
        | Except.ok rendered => Except.ok (mv1, changed, rendered)
      | none => Except.ok (mv1, changed, [])
    else Except.ok (mv1, changed, [])

/-- Embedding of MotionValue.set (Motion.svelte lines 2261-2267) for a value
with no passive effect attached: set(v, render) calls
updateAndNotify(v, render) directly in both branches of the source test. -/
def motionValueSet (mv : MotionValueState) (v : ℚ) (render : Bool) :
    Except JsError (MotionValueState × List ℕ × List ℕ) :=
  updateAndNotify mv v render

/-- A MotionValue at 0 with exactly one change subscriber (handler 7) and no
renderRequest subscribers. -/
def oneSubscriberMV : MotionValueState :=
  { current := 0, prev := 0, changeEvent := some { privateSubscriptions := [7] },
    renderRequestEvent := none }

/-- A MotionValue at 0 with two change subscribers (handlers 7 and 8) and two
renderRequest subscribers (handlers 9 and 10). -/
def twoSubscriberMV : MotionValueState :=
  { current := 0, prev := 0, changeEvent := some { privateSubscriptions := [7, 8] },
    renderRequestEvent := some { privateSubscriptions := [9, 10] } }

/-! ## Keyframes generator (Motion.svelte lines 673-720)

The generator builds absolute time breakpoints from offsets and interpolates
between keyframe values.  The helpers interpolate, fillOffset (imported by
src/src/lib/utils/offsets/default.ts), convertOffsetToTimes and
easingDefinitionToFunction are imported by the source but their modules are
not present under src/, so they are modelled from the spec below; everything
else follows the source. -/

/-- Modelled from the spec: the progress of t through the interval from a to
b, used by the missing interpolate helper (spec section 4.3, eased multi-point
interpolation over breakpoints).  A degenerate interval maps to 1. -/
def segmentProgress (a b t : ℚ) : ℚ :=
  if b - a = 0 then 1 else (t - a) / (b - a)

/-- Modelled from the spec: the linear blend from a to b by p, the numeric
mixer used by the missing interpolate helper. -/
def mixNumber (a b p : ℚ) : ℚ := a + (b - a) * p

/-- Modelled from the spec: the missing easingDefinitionToFunction helper
applied to the easing named linear, which is the identity on progress. -/
def easingLinear : ℚ → ℚ := fun p => p

/-- Modelled from the spec: the missing interpolate helper (spec section 4.3:
"Builds a piecewise interpolation over absolute time breakpoints; next(t)
maps elapsed time to an interpolated value").  Each segment eases the clamped
progress between consecutive breakpoints; inputs outside the covered range
clamp to the first or last value. -/
def interpolatePieces : List ℚ → List ℚ → List (ℚ → ℚ) → ℚ → ℚ
  | t0 :: t1 :: ts, v0 :: v1 :: vs, e :: es, t =>
    if t ≤ t1 ∨ ts = [] then
      mixNumber v0 v1 (e (clamp 0 1 (segmentProgress t0 t1 t)))
    else interpolatePieces (t1 :: ts) (v1 :: vs) es t
  | _, _, _, _ => 0

/-- Modelled from the spec: the missing fillOffset helper used by
defaultOffset, producing the evenly-spaced tail 1/n, 2/n, ..., n/n of the
first-last-anchored default offset list. -/
def fillOffsetEven (remaining : ℕ) : List ℚ :=
  (List.range remaining).map (fun i => ((i + 1 : ℕ) : ℚ) / (remaining : ℚ))

/-- Embedding of defaultOffset (src/src/lib/utils/offsets/default.ts): the
seed offset 0 followed by fillOffset of length minus 1. -/
def defaultOffset (n : ℕ) : List ℚ := 0 :: fillOffsetEven (n - 1)

/-- Modelled from the spec: the missing convertOffsetToTimes helper scaling
the 0..1 offsets by the duration into absolute time breakpoints. -/
def convertOffsetToTimes (offsets : List ℚ) (duration : ℚ) : List ℚ :=
  offsets.map (fun o => o * duration)

/-- Embedding of defaultEasing (Motion.svelte lines 673-675): one copy of the
easing per segment (values.map(() => easing).splice(0, values.length - 1)
keeps the first length - 1 copies). -/
def defaultEasing (n : ℕ) (easing : ℚ → ℚ) : List (ℚ → ℚ) :=
  List.replicate (n - 1) easing

/-- Options of the keyframes generator after easing resolution: duration,
keyframe values, optional explicit offsets and the single easing function
(the scenario-A configuration uses one easing for all segments, expanded via
defaultEasing exactly as on Motion.svelte line 709). -/
structure KeyframesGenOptions where
  duration : ℚ
  keyframeValues : List ℚ
  times : Option (List ℚ)
  easing : ℚ → ℚ

/-- Embedding of the keyframes generator next (Motion.svelte lines 677-720):
absolute times come from the provided offsets when their length matches the
value count, else from defaultOffset; next(t) interpolates and reports done
when t has reached the duration. -/
def keyframesGenNext (o : KeyframesGenOptions) (t : ℚ) : ℚ × Bool :=
  let offsets := match o.times with
    | some ts => if ts.length = o.keyframeValues.length then ts
                 else defaultOffset o.keyframeValues.length
    | none => defaultOffset o.keyframeValues.length
  let absoluteTimes := convertOffsetToTimes offsets o.duration
  let easings := defaultEasing o.keyframeValues.length o.easing
  (interpolatePieces absoluteTimes o.keyframeValues easings t,
   if t ≥ o.duration then true else false)

/-- The scenario-A generator options: keyframes 0 and 100, duration 200,
linear easing, no explicit offsets. -/
def scenarioAGenOptions : KeyframesGenOptions :=
  { duration := 200, keyframeValues := [0, 100], times := none, easing := easingLinear }

/-! ## MainThreadAnimation.tick (Motion.svelte lines 1488-1634) -/

/-- A keyframe generator as the tick function consumes it: a next function
from elapsed milliseconds to a value and a done flag. -/
structure GenFn where
  next : ℚ → ℚ × Bool

/-- The repeatType option values (Motion.svelte RepeatType). -/
inductive RepeatKind
  | loop
  | reverse
  | mirror
deriving Repr, DecidableEq

/-- The AnimationPlayState values held by MainThreadAnimation.state. -/
inductive PlayState
  | idle
  | running
  | paused
  | finished
deriving Repr, DecidableEq

/-- The options the tick function reads (Motion.svelte line 1510). -/
structure TickOptions where
  delay : ℚ
  rep : ℕ
  repeatType : RepeatKind
  repeatDelay : ℚ

/-- The resolved data the tick function destructures (Motion.svelte lines
1497-1506), produced by initPlayback. -/
structure TickResolved where
  generator : GenFn
  mirroredGenerator : Option GenFn
  mapPercentToKeyframes : Option (ℚ → ℚ)
  keyframes : List ℚ
  calculatedDuration : Option ℚ
  resolvedDuration : ℚ
  totalDuration : ℚ
  finalKeyframe : Option ℚ

/-- The mutable playback fields the tick function reads. -/
structure TickState where
  startTime : Option ℚ
  holdTime : Option ℚ
  speed : ℚ
  playState : PlayState

/-- Embedding of resolvedDuration from initPlayback (Motion.svelte line 1463). -/
def resolvedDurationOf (calculatedDuration repeatDelay : ℚ) : ℚ :=
  calculatedDuration + repeatDelay

/-- Embedding of totalDuration from initPlayback (Motion.svelte line 1464). -/
def totalDurationOf (resolvedDuration : ℚ) (rep : ℕ) (repeatDelay : ℚ) : ℚ :=
  resolvedDuration * ((rep : ℚ) + 1) - repeatDelay

/-- Embedding of getFinalKeyframe (Motion.svelte lines 1348-1353) for numeric
keyframes (on which the isNotNull filter is the identity).  The index is 0
when repeat is set, repeatType is not loop and repeat is odd, else the last
index; a zero index or an absent finalKeyframe selects from the list, else
the finalKeyframe override is returned. -/
def getFinalKeyframeNum (keyframes : List ℚ) (rep : ℕ) (rt : RepeatKind)
    (finalKeyframe : Option ℚ) : ℚ :=
  let index : ℕ :=
    if rep ≠ 0 ∧ rt ≠ RepeatKind.loop ∧ rep % 2 = 1 then 0 else keyframes.length - 1
  if index = 0 ∨ finalKeyframe = none then keyframes.getD index 0
  else finalKeyframe.getD 0

/-- Outcome of the repeat block of tick: the generator-relative elapsed time,
whether the mirrored generator is selected, and the internal iteration index
and within-iteration progress the block computed. -/
structure RepeatOutcome where
  elapsed : ℚ
  useMirror : Bool
  iteration : ℤ
  iterationProgress : ℚ
deriving Repr, DecidableEq

/-- Embedding of the repeat block of MainThreadAnimation.tick (Motion.svelte
lines 1550-1599).  progress is min(currentTime, totalDuration) divided by
resolvedDuration; the iteration index is its floor and the within-iteration
progress its remainder mod 1; a zero remainder with progress at least 1
counts as the end of the previous iteration (progress 1, index decremented);
the index is then clamped to repeat + 1.  On odd iterations, reverse mirrors
the progress to 1 - p, further reduced by repeatDelay / resolvedDuration when
repeatDelay is truthy, while mirror switches to the mirrored generator.  The
elapsed time is the progress clamped to 0..1 times resolvedDuration. -/
def tickRepeatBlock (currentTime totalDuration resolvedDuration repeatDelay : ℚ)
    (rep : ℕ) (rt : RepeatKind) : RepeatOutcome :=
  let progress := min currentTime totalDuration / resolvedDuration
  let iter0 : ℤ := ⌊progress⌋
  let prog0 := jsFract progress
  let prog1 := if prog0 = 0 ∧ progress ≥ 1 then 1 else prog0
  let iter1 : ℤ := if prog1 = 1 then iter0 - 1 else iter0
  let iter2 : ℤ := min iter1 ((rep : ℤ) + 1)
  let isOddIteration := iter2 % 2 ≠ 0
  let prog2 :=
    if isOddIteration ∧ rt = RepeatKind.reverse then
      (if repeatDelay ≠ 0 then (1 - prog1) - repeatDelay / resolvedDuration else 1 - prog1)
    else prog1
  let useMirror := isOddIteration ∧ rt = RepeatKind.mirror
  { elapsed := clamp 0 1 prog2 * resolvedDuration, useMirror := useMirror,
    iteration := iter2, iterationProgress := prog2 }

/-- Modelled from the words of claim C6, for refutation: the claimed
iteration index, the floor of min(currentTime, totalDuration) over
resolvedDuration, clamped to repeat + 1. -/
def claimedIterationIndex (currentTime totalDuration resolvedDuration : ℚ)
    (rep : ℕ) : ℤ :=
  min ⌊min currentTime totalDuration / resolvedDuration⌋ ((rep : ℤ) + 1)

/-- Result of the tick computation: the sample value and done flag the tick
returns, whether the tick takes the finish() transition, and the updated
start and current times. -/
structure TickResult where
  value : ℚ
  done : Bool
  finishedNow : Bool
  newStartTime : Option ℚ
  newCurrentTime : ℚ
deriving Repr, DecidableEq

/-- Embedding of MainThreadAnimation.tick (Motion.svelte lines 1488-1633),
value-and-state level.  With no start time it returns generator.next(0)
(line 1508).  Otherwise it rebases startTime against the incoming timestamp
(lines 1518-1522), derives currentTime from the hold time or the rounded
timestamp delta times speed (lines 1525-1534), rebases for delay and detects
the delay phase (lines 1537-1539), snaps a finished non-held animation to
totalDuration (line 1542), applies the repeat block (lines 1550-1599),
samples the selected generator (line 1606), applies mapPercentToKeyframes
(line 1608), overrides done from totalDuration when calculatedDuration is
known (line 1614), computes isAnimationFinished and the final-keyframe
override (lines 1618-1623).  The subsequent onUpdate call receives the
returned value; the finish() call it triggers when isAnimationFinished is
recorded in finishedNow and modelled separately. -/
def tickCompute (rd : TickResolved) (opts : TickOptions) (st : TickState)
    (timestamp : ℚ) (sample : Bool) : TickResult :=
  match st.startTime with
  | none =>
    let r := rd.generator.next 0
    { value := r.1, done := r.2, finishedNow := false, newStartTime := none,
      newCurrentTime := 0 }
  | some st0 =>
    let startTime1 :=
      if st.speed > 0 then min st0 timestamp
      else if st.speed < 0 then min (timestamp - rd.totalDuration / st.speed) st0
      else st0
    let currentTime0 : ℚ :=
      if sample then timestamp
      else match st.holdTime with
        | some h => h
        | none => jsRound (timestamp - startTime1) * st.speed
    let timeWithoutDelay := currentTime0 - opts.delay * (if st.speed ≥ 0 then 1 else -1)
    let isInDelayPhase :=
      if st.speed ≥ 0 then timeWithoutDelay < 0 else timeWithoutDelay > rd.totalDuration
    let currentTime1 := max timeWithoutDelay 0
    let currentTime2 :=
      if st.playState = PlayState.finished ∧ st.holdTime = none then rd.totalDuration
      else currentTime1
    let repeatInfo :=
      if opts.rep ≠ 0 then
        let r := tickRepeatBlock currentTime2 rd.totalDuration rd.resolvedDuration
          opts.repeatDelay opts.rep opts.repeatType
        (r.elapsed, r.useMirror)
      else (currentTime2, false)
    let gen := if repeatInfo.2 then
        (match rd.mirroredGenerator with
         | some g => g
         | none => rd.generator)
      else rd.generator
    let sampled :=
      if isInDelayPhase then (rd.keyframes.getD 0 0, false)
      else gen.next repeatInfo.1
    let v1 := match rd.mapPercentToKeyframes with
      | some f => f sampled.1
      | none => sampled.1
    let done1 :=
      if ¬isInDelayPhase ∧ rd.calculatedDuration ≠ none then
        (if st.speed ≥ 0 then decide (currentTime2 ≥ rd.totalDuration)
         else decide (currentTime2 ≤ 0))
      else sampled.2
    let isAnimationFinished :=
      st.holdTime = none ∧
        (st.playState = PlayState.finished ∨ (st.playState = PlayState.running ∧ done1 = true))
    let v2 :=
      if isAnimationFinished ∧ rd.finalKeyframe ≠ none then
        getFinalKeyframeNum rd.keyframes opts.rep opts.repeatType rd.finalKeyframe
      else v1
    { value := v2, done := done1,
      finishedNow := decide isAnimationFinished,
      newStartTime := some startTime1, newCurrentTime := currentTime2 }

/-! ## Member dispatch and lifecycle of MainThreadAnimation
(Motion.svelte lines 804-959 and 1355-1783)

At runtime a JavaScript property access this.name finds only members declared
without a private name: TypeScript protected/private modifiers are erased,
abstract members emit nothing, and a member declared with a leading number
sign is reachable only through the number-sign syntax inside the class.  The
class bodies declare initPlayback, teardown and stopDriver with private
names, while the call sites (lines 930, 1739, 1754, 1765, 1771) access them
as plain properties, which evaluate to undefined; calling undefined throws
TypeError.  Separately, MainThreadAnimation.state is a plain string field
(line 1636) and the assignments this.state.current = ... (lines 1484, 1749,
1755, 1770) assign a property on a string primitive, which throws TypeError
in strict mode (class bodies are strict-mode code). -/

/-- Instance members of BaseAnimation and MainThreadAnimation reachable by a
plain property access, transcribed from the two class bodies: fields and
methods declared without a leading number sign (TypeScript visibility
keywords are erased at runtime). -/
def mainThreadPublicMembers : List String :=
  ["options", "resolveFinishedPromise", "currentFinishedPromise", "isStopped",
   "_resolved", "hasAttemptedResolve", "resolver", "createdAt", "resolvedAt",
   "calcStartTime", "resolved", "onKeyframesResolved", "onPostResolved", "then",
   "updateFinishedPromise", "driver", "holdTime", "cancelTime", "currentTime",
   "playbackSpeed", "pendingPlayState", "startTime", "tick", "state", "duration",
   "time", "speed", "play", "pause", "stop", "complete", "finish", "cancel"]

/-- Instance members declared with a JavaScript private name (leading number
sign) in MainThreadAnimation: the initPlayback, teardown and stopDriver
methods (Motion.svelte lines 1409, 1769, 1778). -/
def mainThreadPrivateNameMembers : List String :=
  ["initPlayback", "teardown", "stopDriver"]

/-- Whether a plain property access this.name on a MainThreadAnimation
instance finds a member (method or field). -/
def mainThreadHasPublicMember (name : String) : Bool :=
  mainThreadPublicMembers.contains name

/-- Result of a strict-mode assignment to a property of a string primitive,
such as this.state.current = ... where this.state holds a string: TypeError. -/
def jsAssignPropOnStringPrimitive : Option JsError := some JsError.typeError

/-- Lifecycle state of one MainThreadAnimation as the playback methods
observe it.  finishedResolved records whether resolveFinishedPromise has been
invoked on the promise generation currently counted by promiseGeneration. -/
structure AnimLifecycle where
  playState : PlayState
  isStopped : Bool
  holdTime : Option ℚ
  startTime : Option ℚ
  cancelTime : Option ℚ
  finishedResolved : Bool
  promiseGeneration : ℕ
  resolverScheduled : Bool
deriving Repr, DecidableEq

/-- Embedding of the body of the private-named teardown method (Motion.svelte
lines 1769-1776), as it would run if it were reached: its first statement
this.state.current = 'idle' assigns a property on the string primitive held
in this.state and throws TypeError before resolveFinishedPromise runs, so the
state is returned unchanged with the error. -/
def mtaTeardownBody (s : AnimLifecycle) : AnimLifecycle × Option JsError :=
  (s, jsAssignPropOnStringPrimitive)

/-- Embedding of MainThreadAnimation.stop (Motion.svelte lines 1735-1742):
cancel the resolver, set isStopped, return early when idle, else call
this.teardown().  The mutations before the failing call persist, as
JavaScript exceptions do not roll back assignments. -/
def mtaStop (s : AnimLifecycle) : AnimLifecycle × Option JsError :=
  let s1 := { s with resolverScheduled := false, isStopped := true }
  if s1.playState = PlayState.idle then (s1, none)
  else if mainThreadHasPublicMember "teardown" then mtaTeardownBody s1
  else (s1, some JsError.typeError)

/-- Embedding of MainThreadAnimation.finish (Motion.svelte lines 1753-1759):
it calls this.teardown() first, which is not a reachable member. -/
def mtaFinish (s : AnimLifecycle) : AnimLifecycle × Option JsError :=
  if mainThreadHasPublicMember "teardown" then mtaTeardownBody s
  else (s, some JsError.typeError)

/-- Embedding of MainThreadAnimation.complete (Motion.svelte lines 1744-1751)
for a running animation, on which the initial play() branch is skipped: the
statement this.pendingPlayState = this.state.current = 'finished' evaluates
the inner assignment on the string primitive in this.state, which throws
TypeError before either play-state field is updated, leaving the state as it
was. -/
def mtaComplete (s : AnimLifecycle) : AnimLifecycle × Option JsError :=
  (s, jsAssignPropOnStringPrimitive)

/-- Embedding of MainThreadAnimation.cancel (Motion.svelte lines 1761-1767)
for a state whose replayed tick at cancelTime does not itself finish (the
tick side effects are value-level and modelled by tickCompute): the
subsequent this.teardown() call fails as in stop. -/
def mtaCancel (s : AnimLifecycle) : AnimLifecycle × Option JsError :=
  if mainThreadHasPublicMember "teardown" then mtaTeardownBody s
  else (s, some JsError.typeError)

/-- Embedding of hasKeyframesChanged (Motion.svelte lines 1300-1306) for
numeric keyframes: true for a singleton list, else true exactly when some
entry differs from the first. -/
def hasKeyframesChangedNum (keyframes : List ℚ) : Bool :=
  match keyframes with
  | [] => false
  | c :: _ =>
    if keyframes.length = 1 then true else keyframes.any (fun k => k ≠ c)

/-- Embedding of canAnimate (Motion.svelte lines 1308-1344) for numeric
keyframes with no name: a numeric origin is not null, numbers are animatable
(line 1283), so the result is hasKeyframesChanged or, for a spring or
generator-function type, a truthy velocity. -/
def canAnimateNum (keyframes : List ℚ) (typeIsSpringOrGenerator : Bool)
    (velocity : Option ℚ) : Bool :=
  hasKeyframesChangedNum keyframes ||
    (typeIsSpringOrGenerator &&
      (match velocity with
       | some v => decide (v ≠ 0)
       | none => false))

/-- Embedding of the dispatch performed by BaseAnimation.onKeyframesResolved
(Motion.svelte lines 906-941) for numeric keyframes: when the animation
cannot be skipped it evaluates this.initPlayback(keyframes, finalKeyframe).
The subclass declares initPlayback under a private name, so the plain access
yields undefined and the call throws TypeError.  On the skip path with no
delay it applies the final keyframe, calls the lifecycle callbacks and
resolves the finished promise (ok true); with a delay it zeroes the duration
and falls through to the same dispatch. -/
def onKeyframesResolvedDispatch (keyframes : List ℚ) (isGeneratorOption : Bool)
    (typeIsSpringOrGenerator : Bool) (velocity : Option ℚ) (delay : ℚ) :
    Except JsError Bool :=
  if ¬isGeneratorOption ∧ canAnimateNum keyframes typeIsSpringOrGenerator velocity = false
      ∧ delay = 0 then
    Except.ok true
  else if mainThreadHasPublicMember "initPlayback" then Except.ok false
  else Except.error JsError.typeError

/-- Embedding of constructing new MainThreadAnimation with the scenario-A
options (keyframes 0 and 100, type tween, duration 200, linear ease): the
constructor (lines 1394-1407) creates a synchronous KeyframeResolver, whose
scheduleResolve immediately reads the (fully numeric) keyframes and calls
complete, which invokes onKeyframesResolved; canAnimate holds for 0 and 100,
so the constructor reaches the initPlayback dispatch. -/
def constructScenarioA : Except JsError Bool :=
  onKeyframesResolvedDispatch (readKeyframes [KfEntry.val 0, KfEntry.val 100] none none |>.map
      (fun e => match e with
        | KfEntry.val v => v
        | KfEntry.null => 0))
    false false none 0

/-- The scenario-A generator wrapped for the tick function. -/
def scenarioAGen : GenFn := { next := fun t => keyframesGenNext scenarioAGenOptions t }

/-- The resolved data initPlayback would produce for scenario A: the tween
generator with calculatedDuration 200 (the generator reports its duration),
resolvedDuration and totalDuration per initPlayback with repeat 0 and
repeatDelay 0, no mirrored generator, no percent mapping and no final
keyframe override. -/
def scenarioAResolved : TickResolved :=
  { generator := scenarioAGen, mirroredGenerator := none,
    mapPercentToKeyframes := none, keyframes := [0, 100],
    calculatedDuration := some 200,
    resolvedDuration := resolvedDurationOf 200 0,
    totalDuration := totalDurationOf (resolvedDurationOf 200 0) 0 0,
    finalKeyframe := none }

/-- The scenario-A tick options: no delay, no repeat. -/
def scenarioAOpts : TickOptions :=
  { delay := 0, rep := 0, repeatType := RepeatKind.loop, repeatDelay := 0 }

/-- The scenario-A playback state: playing from start time 0 at speed 1. -/
def scenarioAState : TickState :=
  { startTime := some 0, holdTime := none, speed := 1, playState := PlayState.running }

/-- A lifecycle state for a resolved, playing scenario-A animation whose
finished promise has not yet been resolved. -/
def runningLifecycle : AnimLifecycle :=
  { playState := PlayState.running, isStopped := false, holdTime := none,
    startTime := some 0, cancelTime := some 0, finishedResolved := false,
    promiseGeneration := 0, resolverScheduled := true }

/-- Embedding of a full tick call on the scenario-A animation: the sample is
computed by tickCompute, and when the tick takes the finished transition it
invokes this.finish(), whose this.teardown() call throws. -/
def scenarioATickRun (timestamp : ℚ) : (ℚ × Bool) × Option JsError :=
  let r := tickCompute scenarioAResolved scenarioAOpts scenarioAState timestamp false
  if r.finishedNow then ((r.value, r.done), (mtaFinish runningLifecycle).2)
  else ((r.value, r.done), none)

/-- Scenario-C (claim C6) tick configuration over an arbitrary base
generator: repeat 2, repeatType reverse, base duration 100, no repeatDelay;
resolvedDuration and totalDuration per initPlayback. -/
def scenarioCResolved (g : GenFn) : TickResolved :=
  { generator := g, mirroredGenerator := none, mapPercentToKeyframes := none,
    keyframes := [0, 100], calculatedDuration := some 100,
    resolvedDuration := resolvedDurationOf 100 0,
    totalDuration := totalDurationOf (resolvedDurationOf 100 0) 2 0,
    finalKeyframe := none }

/-- The scenario-C tick options. -/
def scenarioCOpts : TickOptions :=
  { delay := 0, rep := 2, repeatType := RepeatKind.reverse, repeatDelay := 0 }

/-- The scenario-C playback state: playing from start time 0 at speed 1. -/
def scenarioCState : TickState :=
  { startTime := some 0, holdTime := none, speed := 1, playState := PlayState.running }

/-! ## Helper lemmas -/

/-- The clamp of the source stays within its bounds when they are ordered. -/
theorem clamp_mem (lo hi v : ℚ) (h : lo ≤ hi) : lo ≤ clamp lo hi v ∧ clamp lo hi v ≤ hi := by
  unfold clamp
  split_ifs with h1 h2
  · exact ⟨h, le_refl hi⟩
  · exact ⟨le_refl lo, h⟩
  · exact ⟨le_of_not_lt h2, le_of_not_lt h1⟩

/-- The JavaScript remainder mod 1 is always less than 1. -/
theorem jsFract_lt_one (q : ℚ) : jsFract q < 1 := by
  unfold jsFract
  split_ifs with h
  · have hf := Int.sub_one_lt_floor q
    linarith
  · have hc := Int.le_ceil q
    linarith

/-- On the concrete envelope x and derivative 2, each Newton update halves
its input, so n loop iterations divide by 2 to the n. -/
theorem newtonLoop_halving (n : ℕ) (r : ℚ) :
    newtonLoop (fun x => x) (fun _ => 2) n r = r / 2 ^ n := by
  induction n generalizing r with
  | zero => simp [newtonLoop]
  | succ m ih =>
    rw [newtonLoop, ih]
    unfold newtonStep
    rw [pow_succ]
    field_simp
    ring

/-- The running play state is not the finished play state (used to reduce
tick conditionals). -/
theorem playState_running_ne_finished : ¬PlayState.running = PlayState.finished := by
  decide

/-! ## Claim theorems -/

/-- C4: a process() call issued on a phase queue that is already
mid-processing does not recurse and is not dropped: it sets the
flush-next-frame flag and returns without executing any callback (first
conjunct, for every environment, fuel, state and log), and exactly one
additional synchronous pass runs immediately after the current pass
completes: in the re-entrancy scenario (callback 0 re-enters process during
the pass) the observable run is pass start, callback 0, pass start — one
extra pass and no second execution of the callback — with the flush flag
clear again afterwards. -/
theorem C4_process_reentrancy :
    (∀ (env : StepEnv) (fuel : ℕ) (s : StepState) (log : List StepEv),
        s.isProcessing = true →
          stepProcess env (fuel + 1) s log = ({ s with flushNextFrame := true }, log))
  ∧ (stepProcess reenterEnv 3 reenterStart []).2
      = [StepEv.passStart, StepEv.ran 0, StepEv.passStart]
  ∧ (stepProcess reenterEnv 3 reenterStart []).1.flushNextFrame = false := by
  refine ⟨?_, by decide, by decide⟩
  intro env fuel s log h
  simp [stepProcess, h]

/-- Witness for C4: the universally quantified conjunct applied to a concrete
mid-processing state. -/
theorem C4_process_reentrancy_witness :
    stepProcess pureEnv 5 { emptyStep with isProcessing := true } []
      = ({ emptyStep with isProcessing := true, flushNextFrame := true }, []) :=
  C4_process_reentrancy.1 pureEnv 4 { emptyStep with isProcessing := true } [] rfl

/-- C9: phase queues deduplicate callbacks by identity: scheduling the same
callback twice (any flags, any prior state) leaves the step state exactly as
after scheduling it once, and in the concrete run (callback 7 scheduled twice
into a fresh step, then the frame processed) the callback is invoked exactly
once in the processed frame. -/
theorem C9_schedule_dedup :
    (∀ (s : StepState) (cb : ℕ) (ka imm : Bool),
        stepSchedule (stepSchedule s cb ka imm) cb ka imm = stepSchedule s cb ka imm)
  ∧ ((stepProcess pureEnv 2
        (stepSchedule (stepSchedule emptyStep 7 false false) 7 false false) []).2).count
      (StepEv.ran 7) = 1 := by
  refine ⟨?_, by decide⟩
  intro s cb ka imm
  by_cases hp : imm = true ∧ s.isProcessing = true <;>
    by_cases hk : ka = true ∧ cb ∉ s.keepAlive <;>
      by_cases ht : cb ∈ s.thisFrame <;>
        by_cases hn : cb ∈ s.nextFrame <;>
          simp [stepSchedule, hp, hk, ht, hn]

/-- C10: the frame delta broadcast by a processed batch is the fixed nominal
1000/60 on the first frame of a wake cycle (useDefaultElapsed set), is
clamped into the closed interval from 1 to 40 milliseconds on every later
frame, is positive in all cases, every follow-up batch scheduled by a batch
itself runs with useDefaultElapsed cleared, and velocity-per-second division
by the delta is well-defined (takes the dividing branch). -/
theorem C10_frame_delta_clamped (s : BatcherState) (now v : ℚ) (flag ka : Bool) :
    (s.useDefaultElapsed = true → processBatchDelta s now = 1000 / 60)
  ∧ (s.useDefaultElapsed = false →
      1 ≤ processBatchDelta s now ∧ processBatchDelta s now ≤ maxElapsed)
  ∧ 0 < processBatchDelta s now
  ∧ ((processBatch s now flag ka).2.2 = true →
      (processBatch s now flag ka).1.useDefaultElapsed = false)
  ∧ velocityPerSecond v (processBatchDelta s now) = v * (1000 / processBatchDelta s now) := by
  have hpos : 0 < processBatchDelta s now := by
    unfold processBatchDelta
    split_ifs with h
    · norm_num
    · exact lt_of_lt_of_le one_pos (le_max_right _ _)
  refine ⟨?_, ?_, hpos, ?_, ?_⟩
  · intro h
    simp [processBatchDelta, h]
  · intro h
    unfold processBatchDelta maxElapsed
    rw [if_neg (by simp [h])]
    constructor
    · exact le_max_right _ _
    · exact max_le (le_trans (min_le_right _ _) (by norm_num)) (by norm_num)
  · unfold processBatch
    split_ifs with h
    · intro _
      rfl
    · intro habs
      simp at habs
  · unfold velocityPerSecond
    rw [if_pos (ne_of_gt hpos)]

/-- Witness for C10: the theorem applied to a concrete batcher state and
timestamp, discharging the hypotheses of its conditional conjuncts. -/
theorem C10_frame_delta_clamped_witness :
    1 ≤ processBatchDelta
        { timestamp := 0, useDefaultElapsed := false, runNextFrame := true,
          isProcessing := true } 100
  ∧ processBatchDelta
        { timestamp := 0, useDefaultElapsed := false, runNextFrame := true,
          isProcessing := true } 100 ≤ maxElapsed :=
  (C10_frame_delta_clamped
    { timestamp := 0, useDefaultElapsed := false, runNextFrame := true,
      isProcessing := true } 100 0 false false).2.1 rfl

/-- C7 counterexample: the claim that however many times complete() is
invoked the completion callback runs exactly once fails on the code: two
complete() calls on a fresh resolver invoke the callback twice, not once
(there is no early return on isComplete in complete()). -/
theorem C7_counterexample :
    (resolverComplete (resolverComplete freshResolver)).completeCalls = 2
  ∧ ¬((resolverComplete (resolverComplete freshResolver)).completeCalls = 1) := by
  decide

/-- C7 as amended: complete() is not itself idempotent — n calls invoke the
completion callback n times — while the isComplete flag it sets guards the
rest of the lifecycle: a completed resolver is removed from the pending set,
resume() refuses to re-schedule it and cancel() leaves it untouched, so the
code's own call sites (the synchronous scheduleResolve path and the
per-frame flush, which drains the pending set) invoke complete() at most
once per resolver. -/
theorem C7_complete_not_idempotent (s : ResolverState) (n : ℕ) :
    (resolverComplete^[n + 1] s).completeCalls = s.completeCalls + (n + 1)
  ∧ (resolverComplete^[n + 1] s).isComplete = true
  ∧ (resolverComplete s).inPendingSet = false
  ∧ resolverResume (resolverComplete s) = resolverComplete s
  ∧ resolverCancel (resolverComplete s) = resolverComplete s := by
  refine ⟨?_, ?_, rfl, by simp [resolverResume, resolverComplete], by simp [resolverCancel, resolverComplete]⟩
  · induction n generalizing s with
    | zero => simp [resolverComplete]
    | succ m ih =>
      rw [Function.iterate_succ_apply]
      rw [ih (resolverComplete s)]
      simp [resolverComplete]
      ring
  · induction n generalizing s with
    | zero => simp [resolverComplete]
    | succ m ih =>
      rw [Function.iterate_succ_apply]
      exact ih (resolverComplete s)

/-- C3: resolving the keyframes [null, null, 10] with no current value and no
instance-read result leaves the list as [null, null, 10] instead of the
claimed [10, 10, 10]: the final-keyframe fallback tests the entry against
undefined while the unresolved placeholder is null, so it never fires.  The
substitution order itself works: a defined current value fills a null first
entry, an instance read fills it when the current value is undefined, and
null entries beyond the first copy the previous resolved entry. -/
theorem C3_null_first_keyframe_not_hydrated :
    readKeyframes [KfEntry.null, KfEntry.null, KfEntry.val 10] none none
      = [KfEntry.null, KfEntry.null, KfEntry.val 10]
  ∧ readKeyframes [KfEntry.null, KfEntry.null, KfEntry.val 10] none none
      ≠ [KfEntry.val 10, KfEntry.val 10, KfEntry.val 10]
  ∧ readKeyframes [KfEntry.null, KfEntry.val 5] (some (some 3)) none
      = [KfEntry.val 3, KfEntry.val 5]
  ∧ readKeyframes [KfEntry.null, KfEntry.val 5] (some none) (some (some 7))
      = [KfEntry.val 7, KfEntry.val 5]
  ∧ readKeyframes [KfEntry.val 1, KfEntry.null, KfEntry.null] none none
      = [KfEntry.val 1, KfEntry.val 1, KfEntry.val 1] := by
  refine ⟨by decide, by decide, ?_, ?_, ?_⟩ <;>
    simp [readKeyframes, propagateNulls, kfStrictEqUndefined]

/-- C8: with exactly one change subscriber and no passive effect, setting a
MotionValue to a different value throws TypeError instead of notifying: the
single-subscriber fast path of SubscriptionManager.notify reads the
nonexistent plain property this.subscriptions (the field is declared under a
private name) and indexes undefined.  With two subscribers the loop path
notifies both (and the renderRequest subscriber when render is set), and a
set to an unchanged value does not notify at all, so the claim fails exactly
on the one-subscriber case it includes. -/
theorem C8_single_change_subscriber_throws :
    motionValueSet oneSubscriberMV 1 true = Except.error JsError.typeError
  ∧ motionValueSet twoSubscriberMV 1 true
      = Except.ok ({ twoSubscriberMV with prev := 0, current := 1 }, [7, 8], [9, 10])
  ∧ motionValueSet oneSubscriberMV 0 false
      = Except.ok ({ oneSubscriberMV with prev := 0, current := 0 }, [], []) := by
  refine ⟨?_, ?_, ?_⟩ <;>
    simp [motionValueSet, updateAndNotify, oneSubscriberMV, twoSubscriberMV,
      SubscriptionManager.notify, SubscriptionManager.subscriptionsPropertyLookup]

/-- C5 counterexample: the claim that approximateRoot performs 12 fixed
Newton iterations fails on the code: the loop for i = 1 to
rootIterations - 1 performs 11 updates.  On the envelope x with derivative 2
(each update halves its input, starting from guess 1) the code computes
1/2^11 = 1/2048, while 12 iterations would compute 1/4096; the two differ. -/
theorem C5_counterexample :
    approximateRoot (fun x => x) (fun _ => 2) 1 = 1 / 2048
  ∧ approximateRootTwelveIterations (fun x => x) (fun _ => 2) 1 = 1 / 4096
  ∧ approximateRoot (fun x => x) (fun _ => 2) 1
      ≠ approximateRootTwelveIterations (fun x => x) (fun _ => 2) 1 := by
  have h11 : approximateRoot (fun x => x) (fun _ => 2) 1 = 1 / 2 ^ 11 := by
    unfold approximateRoot rootIterations
    exact newtonLoop_halving 11 1
  have h12 : approximateRootTwelveIterations (fun x => x) (fun _ => 2) 1 = 1 / 2 ^ 12 := by
    unfold approximateRootTwelveIterations
    exact newtonLoop_halving 12 1
  refine ⟨by rw [h11]; norm_num, by rw [h12]; norm_num, ?_⟩
  rw [h11, h12]
  norm_num

/-- C5 as amended: findSpring clamps the damping ratio 1 - bounce to the
interval from 0.05 to 1 and the duration (converted to seconds) to the
interval from 0.01 to 10 seconds; it only warns, never fails, and the warning
fires exactly when the requested duration exceeds 10 seconds; and the Newton
root-find applies the update x := x - envelope(x)/derivative(x) a fixed 11
times (the loop runs for i = 1 to rootIterations - 1, one fewer than the
rootIterations constant of 12). -/
theorem C5_clamps_warning_iterations (duration bounce : ℚ)
    (envelope derivative : ℚ → ℚ) (g : ℚ) :
    minDamping ≤ (findSpringFront duration bounce).dampingRat
  ∧ (findSpringFront duration bounce).dampingRat ≤ maxDamping
  ∧ minDuration ≤ (findSpringFront duration bounce).durationSec
  ∧ (findSpringFront duration bounce).durationSec ≤ maxDuration
  ∧ ((findSpringFront duration bounce).warned = true ↔ duration > 10000)
  ∧ approximateRoot envelope derivative g = newtonLoop envelope derivative 11 g := by
  have hd := clamp_mem minDamping maxDamping (1 - bounce) (by norm_num [minDamping, maxDamping])
  have hs := clamp_mem minDuration maxDuration (millisecondsToSeconds duration)
    (by norm_num [minDuration, maxDuration])
  refine ⟨hd.1, hd.2, hs.1, hs.2, ?_, rfl⟩
  unfold findSpringFront
  simp only [secondsToMilliseconds, maxDuration]
  norm_num

/-- Witness for C5: the amended theorem applied at duration 20000 and bounce
0, concluding from its warning conjunct that the over-long duration warns. -/
theorem C5_clamps_warning_iterations_witness :
    (findSpringFront 20000 0).warned = true :=
  (C5_clamps_warning_iterations 20000 0 (fun x => x) (fun _ => 2) 1).2.2.2.2.1.mpr
    (by norm_num)

/-- C6 counterexample: the claim that the tick computes the iteration index
as the floor of min(currentTime, totalDuration)/resolvedDuration clamped to
repeat + 1 fails at exact iteration boundaries: with repeat 2, repeatType
reverse, resolvedDuration 100, totalDuration 300 and currentTime 100 the
claimed formula gives 1, while the code counts the instant as the end of the
previous iteration and computes 0. -/
theorem C6_counterexample :
    (tickRepeatBlock 100 300 100 0 2 RepeatKind.reverse).iteration = 0
  ∧ claimedIterationIndex 100 300 100 2 = 1
  ∧ (tickRepeatBlock 100 300 100 0 2 RepeatKind.reverse).iteration
      ≠ claimedIterationIndex 100 300 100 2 := by
  refine ⟨?_, ?_, ?_⟩ <;>
    norm_num [tickRepeatBlock, claimedIterationIndex, jsFract, clamp, min_def]

/-- C6 as amended: away from exact iteration boundaries the tick computes the
iteration index exactly as claimed, the floor of
min(currentTime, totalDuration)/resolvedDuration clamped to repeat + 1; at an
exact boundary (zero remainder with progress at least 1) it instead
attributes the instant to the end of the previous iteration, decrementing the
index before the clamp.  The concrete scenario holds: with repeat 2,
repeatType reverse, base duration 100 and no repeatDelay, the tick at global
time 150 samples the base (not the mirrored) generator at the reversed local
time 100 - 50 = 50 and is not yet done. -/
theorem C6_repeat_reverse_iteration (t total D rdel : ℚ) (rep : ℕ) (g : GenFn) :
    (¬(jsFract ((min t total) / D) = 0 ∧ (min t total) / D ≥ 1) →
        (tickRepeatBlock t total D rdel rep RepeatKind.reverse).iteration
          = claimedIterationIndex t total D rep)
  ∧ ((jsFract ((min t total) / D) = 0 ∧ (min t total) / D ≥ 1) →
        (tickRepeatBlock t total D rdel rep RepeatKind.reverse).iteration
          = min (⌊(min t total) / D⌋ - 1) ((rep : ℤ) + 1))
  ∧ (tickCompute (scenarioCResolved g) scenarioCOpts scenarioCState 150 false).value
      = (g.next (100 - 50)).1
  ∧ (tickCompute (scenarioCResolved g) scenarioCOpts scenarioCState 150 false).finishedNow
      = false := by
  have hblock : tickRepeatBlock 150 300 100 0 2 RepeatKind.reverse
      = { elapsed := 50, useMirror := false, iteration := 1, iterationProgress := 1 / 2 } := by
    norm_num [tickRepeatBlock, jsFract, clamp, min_def]
    decide
  refine ⟨?_, ?_, ?_, ?_⟩
  · intro h
    simp only [tickRepeatBlock, claimedIterationIndex]
    rw [if_neg h, if_neg (ne_of_lt (jsFract_lt_one ((min t total) / D)))]
  · intro h
    simp only [tickRepeatBlock]
    rw [if_pos h, if_pos rfl]
  · simp only [tickCompute, scenarioCResolved, scenarioCOpts, scenarioCState,
      resolvedDurationOf, totalDurationOf]
    norm_num [jsRound, max_def, min_def, hblock, playState_running_ne_finished]
  · simp only [tickCompute, scenarioCResolved, scenarioCOpts, scenarioCState,
      resolvedDurationOf, totalDurationOf]
    norm_num [jsRound, max_def, min_def, hblock, playState_running_ne_finished]
    intro h
    exact absurd h (Option.some_ne_none 100)

/-- Witness for C6: the amended theorem applied at the concrete off-boundary
input t = 150 (discharging the non-boundary hypothesis), where the code and
the claimed formula agree on iteration index 1. -/
theorem C6_repeat_reverse_iteration_witness :
    (tickRepeatBlock 150 300 100 0 2 RepeatKind.reverse).iteration
      = claimedIterationIndex 150 300 100 2 :=
  (C6_repeat_reverse_iteration 150 300 100 0 2
    { next := fun t => (t, false) }).1
    (by norm_num [jsFract, min_def])

/-- C1: the tick arithmetic of scenario A (keyframes 0 and 100, type tween,
duration 200, linear ease) computes exactly the claimed samples — value 0
with done false at t = 0, value 50 with done false at t = 100, and value 100
with done true at t = 200 — but the animation cannot actually be constructed
and ticked: the constructor reaches the this.initPlayback dispatch, which
throws TypeError because initPlayback is declared under a private name, and
even on a resolved animation the t = 200 tick throws from finish() (after
reporting value 100 through onUpdate) because this.teardown is likewise
unreachable. -/
theorem C1_scenarioA_tick_values :
    (tickCompute scenarioAResolved scenarioAOpts scenarioAState 0 false).value = 0
  ∧ (tickCompute scenarioAResolved scenarioAOpts scenarioAState 0 false).done = false
  ∧ (tickCompute scenarioAResolved scenarioAOpts scenarioAState 100 false).value = 50
  ∧ (tickCompute scenarioAResolved scenarioAOpts scenarioAState 100 false).done = false
  ∧ (tickCompute scenarioAResolved scenarioAOpts scenarioAState 200 false).value = 100
  ∧ (tickCompute scenarioAResolved scenarioAOpts scenarioAState 200 false).done = true
  ∧ constructScenarioA = Except.error JsError.typeError
  ∧ scenarioATickRun 200 = ((100, true), some JsError.typeError) := by
  have hgen : ∀ t : ℚ, scenarioAGen.next t
      = (100 * clamp 0 1 (t / 200), if t ≥ 200 then true else false) := by
    intro t
    simp [scenarioAGen, keyframesGenNext, scenarioAGenOptions, defaultOffset,
      fillOffsetEven, convertOffsetToTimes, defaultEasing, interpolatePieces,
      mixNumber, easingLinear, segmentProgress, List.range_succ]
  have h0 : tickCompute scenarioAResolved scenarioAOpts scenarioAState 0 false
      = { value := 0, done := false, finishedNow := false, newStartTime := some 0,
          newCurrentTime := 0 } := by
    simp only [tickCompute, scenarioAResolved, scenarioAOpts, scenarioAState,
      resolvedDurationOf, totalDurationOf]
    norm_num [jsRound, max_def, min_def, playState_running_ne_finished, hgen, clamp]
  have h100 : tickCompute scenarioAResolved scenarioAOpts scenarioAState 100 false
      = { value := 50, done := false, finishedNow := false, newStartTime := some 0,
          newCurrentTime := 100 } := by
    simp only [tickCompute, scenarioAResolved, scenarioAOpts, scenarioAState,
      resolvedDurationOf, totalDurationOf]
    norm_num [jsRound, max_def, min_def, playState_running_ne_finished, hgen, clamp]
  have h200 : tickCompute scenarioAResolved scenarioAOpts scenarioAState 200 false
      = { value := 100, done := true, finishedNow := true, newStartTime := some 0,
          newCurrentTime := 200 } := by
    simp only [tickCompute, scenarioAResolved, scenarioAOpts, scenarioAState,
      resolvedDurationOf, totalDurationOf]
    norm_num [jsRound, max_def, min_def, playState_running_ne_finished, hgen, clamp]
  refine ⟨by rw [h0], by rw [h0], by rw [h100], by rw [h100], by rw [h200], by rw [h200],
    by simp [constructScenarioA, onKeyframesResolvedDispatch, readKeyframes,
      propagateNulls, kfStrictEqUndefined, canAnimateNum, hasKeyframesChangedNum,
      mainThreadHasPublicMember, mainThreadPublicMembers], ?_⟩
  unfold scenarioATickRun
  rw [h200]
  simp [mtaFinish, mtaTeardownBody, jsAssignPropOnStringPrimitive,
    mainThreadHasPublicMember, mainThreadPublicMembers]

/-- C2: the playback lifecycle methods throw instead of resolving the
finished promise: on a resolved, playing controller, stop(), complete(),
cancel() and the internal finish() transition all raise TypeError — stop,
cancel and finish because this.teardown() cannot reach the private-named
teardown method, complete because this.state.current = 'finished' assigns a
property on a string primitive — and the mutations made before the throw
leave the finished promise unresolved, so a caller awaiting it hangs. -/
theorem C2_lifecycle_methods_throw :
    (mtaStop runningLifecycle).2 = some JsError.typeError
  ∧ (mtaStop runningLifecycle).1.finishedResolved = false
  ∧ (mtaComplete runningLifecycle).2 = some JsError.typeError
  ∧ (mtaCancel runningLifecycle).2 = some JsError.typeError
  ∧ (mtaFinish runningLifecycle).2 = some JsError.typeError
  ∧ mainThreadHasPublicMember "teardown" = false
  ∧ mainThreadHasPublicMember "stopDriver" = false := by
  decide

end MotionRepl
